import Mathlib

/-!
Shallow embedding of `src/main.py` of the wellness token service.

The service exposes one endpoint, `get_token`, that first tries a plain
OAuth2 client-credentials POST (`fallback_request`), and on challenge
detection or transport failure falls back to a Selenium/2Captcha browser
path (`solve_cloudflare_with_2captcha`) wrapped in a 300-second bound
(`run_2captcha_with_timeout`).

The embedding models the routing logic of `get_token` (src/main.py lines
158-223) as a pure function of two environment inputs: the outcome of the
direct HTTP attempt (`Option Response`, `none` when `fallback_request`
raised) and the behaviour of the browser path (`SolverOutcome`).
-/

/-- JSON values as returned by Python's `json.loads` / `response.json()`.
Numbers are modelled as integers (the one numeric token field,
`expires_in`, is an integer); objects are association lists with the
distinct keys `json.loads` produces for a JSON document. -/
inductive Json : Type
  | null : Json
  | bool (b : Bool) : Json
  | num (n : Int) : Json
  | str (s : String) : Json
  | arr (elems : List Json) : Json
  | obj (fields : List (String × Json)) : Json

/-- Key lookup in a JSON object, mirroring Python dict access. -/
def jsonLookup : List (String × Json) → String → Option Json
  | [], _ => none
  | (k, v) :: rest, key => if k = key then some v else jsonLookup rest key

/-- The pydantic model `TokenResponse` (src/main.py lines 37-40). -/
structure TokenResponse where
  access_token : String
  expires_in : Int
  token_type : String
deriving DecidableEq, Repr

/-- The pydantic model `ErrorResponse` (src/main.py lines 153-156). -/
structure ErrorResponse where
  error : String
  message : String
  status_code : Nat
deriving DecidableEq, Repr

/-- Models the pydantic construction `TokenResponse(**token_data)`:
`some` when validation succeeds (the value is a JSON object carrying a
string `access_token`, an integer `expires_in` and a string `token_type`;
extra keys are ignored, matching pydantic's default), `none` when the
construction raises (missing key, wrong type, or a non-object value —
which raises `TypeError`/`ValidationError`, both `Exception`s). -/
def tokenResponseOfJson : Json → Option TokenResponse
  | .obj fields =>
    match jsonLookup fields "access_token",
          jsonLookup fields "expires_in",
          jsonLookup fields "token_type" with
    | some (.str a), some (.num n), some (.str t) => some ⟨a, n, t⟩
    | _, _, _ => none
  | _ => none

/-- Whether the first list is an initial segment of the second. -/
def leadsWith : List Char → List Char → Bool
  | [], _ => true
  | _ :: _, [] => false
  | a :: as, b :: bs => a = b && leadsWith as bs

/-- Whether `pat` occurs as a contiguous subsequence of the second list. -/
def containsSeq (pat : List Char) : List Char → Bool
  | [] => leadsWith pat []
  | c :: rest => leadsWith pat (c :: rest) || containsSeq pat rest

/-- Python's substring test `pat in s`. -/
def strContains (s pat : String) : Bool := containsSeq pat.data s.data

/-- The challenge-marker check of src/main.py line 185:
`"Just a moment" in response.text or "cf-challenge" in response.text`. -/
def challengeMarked (text : String) : Bool :=
  strContains text "Just a moment" || strContains text "cf-challenge"

/-- An upstream HTTP response as observed by `get_token`: the status code,
the body text (`response.text`), and the result of `response.json()` —
`some` when the body parses as JSON, `none` when parsing raises. The two
body fields are two observations of the same body; concrete instances in
this file are chosen consistent. -/
structure Response where
  status_code : Nat
  text : String
  jsonBody : Option Json

/-- The 200-success path of src/main.py lines 171-178: a token is returned
directly exactly when a response is present, its status is 200, its body
parses as JSON, and `TokenResponse(**token_data)` validates. On any
failure inside the `try` the exception is caught and control falls
through. `none` on the direct attempt models `fallback_request` raising
(line 166-169 sets `response = None`). -/
def directSuccess : Option Response → Option TokenResponse
  | some r => if r.status_code = 200 then r.jsonBody.bind tokenResponseOfJson else none
  | none => none

/-- The fallback decision of src/main.py lines 181-187: the browser path is
used when there was no response at all, or when the body text carries a
challenge marker. -/
def should_use_2captcha : Option Response → Bool
  | none => true
  | some r => challengeMarked r.text

/-- Behaviour of one invocation of the bounded browser path, as seen from
`get_token`:
* `value (some (s, p))` — the solver returned the string `s` within the
  deadline; `p` is what `json.loads s` yields (`none` when it raises).
* `value none` — the solver returned Python `None` within the deadline.
* `overDeadline` — the solver had not finished after `timeout_sec`, so
  `asyncio.wait_for` raised `asyncio.TimeoutError`.
* `raises msg` — the executor call itself raised an exception with text
  `msg` (e.g. Chrome launch failure: `new_chrome_driver()` is called
  before the `try` of `solve_cloudflare_with_2captcha`, so that exception
  propagates out of the executor). -/
inductive SolverOutcome : Type
  | value (v : Option (String × Option Json))
  | overDeadline
  | raises (msg : String)

/-- What awaiting `run_2captcha_with_timeout` produces in `get_token`. -/
inductive AwaitResult : Type
  | value (v : Option (String × Option Json))
  | timeoutErr
  | otherExn (msg : String)

/-- src/main.py lines 145-151: `asyncio.wait_for` around the solver.
An `asyncio.TimeoutError` is caught HERE and converted to `None`
(lines 149-151), so the caller never observes `timeoutErr` from this
wrapper; any other exception propagates. -/
def run_2captcha_with_timeout : SolverOutcome → AwaitResult
  | .value v => .value v
  | .overDeadline => .value none
  | .raises m => .otherExn m

/-- The endpoint's reply body: either a token or a structured error. -/
inductive ApiReply : Type
  | token (t : TokenResponse)
  | err (e : ErrorResponse)
deriving DecidableEq

/-- src/main.py lines 219-223. -/
def allMethodsFailed : ErrorResponse :=
  ⟨"all_methods_failed", "All methods to obtain token failed", 500⟩

/-- src/main.py lines 198-202. -/
def invalidResponse : ErrorResponse :=
  ⟨"invalid_response", "Received invalid JSON from 2Captcha solution", 500⟩

/-- src/main.py lines 205-209 (the `except asyncio.TimeoutError` branch). -/
def timeoutError : ErrorResponse :=
  ⟨"timeout", "Captcha solving timed out after 5 minutes", 408⟩

/-- src/main.py lines 212-216: the message is "Captcha solving failed: "
followed by the raised exception's text. -/
def captchaFailed (emsg : String) : ErrorResponse :=
  ⟨"captcha_failed", "Captcha solving failed: " ++ emsg, 500⟩

/-- The text of the pydantic `ValidationError` raised by
`TokenResponse(**token_data)` on a non-token JSON value. The formatting is
third-party (pydantic) and no claim depends on it; it is modelled as a
fixed function of the offending value. -/
def validationMsg (_j : Json) : String := "validation error for TokenResponse"

/-- src/main.py lines 190-216: the body of `if should_use_2captcha:`.
The awaited wrapper result is matched exactly as the `try/except` nesting
does: a truthy string is `json.loads`-parsed (`JSONDecodeError` →
`invalid_response`), a validating token object is returned, a pydantic
`ValidationError` escapes the inner `try` and is caught by the outer
`except Exception` → `captcha_failed`; a falsy result (`None` or the
empty string) falls out of the block to the final `all_methods_failed`
return (lines 219-223). -/
def browserPhase (solver : SolverOutcome) : ApiReply :=
  match run_2captcha_with_timeout solver with
  | .value (some (s, parsed)) =>
    if s = "" then .err allMethodsFailed
    else
      match parsed with
      | none => .err invalidResponse
      | some j =>
        match tokenResponseOfJson j with
        | some tok => .token tok
        | none => .err (captchaFailed (validationMsg j))
  | .value none => .err allMethodsFailed
  | .timeoutErr => .err timeoutError
  | .otherExn m => .err (captchaFailed m)

/-- One run of the endpoint: the reply body and whether the browser
fallback path was invoked. -/
structure RunResult where
  reply : ApiReply
  browserInvoked : Bool
deriving DecidableEq

/-- src/main.py lines 158-223, `get_token`: try the direct exchange; on a
200 response whose body validates as a token, return it at once (the
marker check is never reached). Otherwise consult
`should_use_2captcha`; when it holds, run the bounded browser path,
else return `all_methods_failed`. -/
def get_token (direct : Option Response) (solver : SolverOutcome) : RunResult :=
  match directSuccess direct with
  | some tok => ⟨.token tok, false⟩
  | none =>
    if should_use_2captcha direct then
      ⟨browserPhase solver, true⟩
    else
      ⟨.err allMethodsFailed, false⟩

/-- Outcome of a Python expression or block: a value, a raised `Exception`
(what `except Exception` catches), or a raised `BaseException` that no
`except Exception` clause catches (e.g. `KeyboardInterrupt`). -/
inductive PyOutcome (α : Type) : Type
  | ok (a : α)
  | exn (msg : String)
  | fatal
deriving DecidableEq

/-- One run of `solve_cloudflare_with_2captcha`: the outcome seen by its
caller, and whether `driver.quit()` was executed. -/
structure SolverRun where
  outcome : PyOutcome (Option String)
  quitCalled : Bool
deriving DecidableEq

/-- src/main.py lines 86-143, `solve_cloudflare_with_2captcha`, as a
control-flow model. `launch` is the outcome of
`driver = new_chrome_driver()` (line 92) — it runs BEFORE the `try`, so
its failure propagates with no `quit`. `body` is the outcome of the
`try` block (lines 95-138, navigation, optional 2Captcha solve, in-page
fetch), abstracted as an arbitrary outcome producing the fetch text (or
`None`); `except Exception` (lines 139-141) converts a raised `Exception`
into a returned `None`, and the `finally` (lines 142-143) runs
`driver.quit()` on every exit from the `try`, including a propagating
`BaseException`. -/
def solve_cloudflare_with_2captcha (launch : PyOutcome Unit)
    (body : PyOutcome (Option String)) : SolverRun :=
  match launch with
  | .ok _ =>
    match body with
    | .ok s => ⟨.ok s, true⟩
    | .exn _ => ⟨.ok none, true⟩
    | .fatal => ⟨.fatal, true⟩
  | .exn m => ⟨.exn m, false⟩
  | .fatal => ⟨.fatal, false⟩

/-- Uppercase hexadecimal digit, as Python's `urllib.parse.quote` emits. -/
def hexDigit (n : Nat) : Char :=
  if n < 10 then Char.ofNat (48 + n) else Char.ofNat (55 + n)

/-- Percent-encoding of one byte: `%XX` with uppercase hex. -/
def byteHex (b : Nat) : List Char := ['%', hexDigit (b / 16), hexDigit (b % 16)]

/-- Python's `urllib.parse` ALWAYS_SAFE byte set: ASCII letters, digits,
and `_.-~`. -/
def alwaysSafe (b : Nat) : Bool :=
  (48 ≤ b && b ≤ 57) || (65 ≤ b && b ≤ 90) || (97 ≤ b && b ≤ 122) ||
    b = 95 || b = 46 || b = 45 || b = 126

/-- `quote_plus` treatment of one byte: safe bytes pass through, a space
becomes `+`, everything else is percent-encoded. -/
def quoteByte (b : Nat) : List Char :=
  if alwaysSafe b then [Char.ofNat b]
  else if b = 32 then ['+']
  else byteHex b

/-- UTF-8 encoding of one character, as Python's `str.encode("utf-8")`
produces before percent-encoding. -/
def utf8Bytes (c : Char) : List Nat :=
  let n := c.toNat
  if n < 128 then [n]
  else if n < 2048 then [192 + n / 64, 128 + n % 64]
  else if n < 65536 then [224 + n / 4096, 128 + (n / 64) % 64, 128 + n % 64]
  else [240 + n / 262144, 128 + (n / 4096) % 64, 128 + (n / 64) % 64, 128 + n % 64]

/-- Python's `urllib.parse.quote_plus`, which `requests` applies to every
key and value of a `data=` dict when form-encoding a POST body. -/
def quote_plus (s : String) : String :=
  ⟨(s.data.flatMap utf8Bytes).flatMap quoteByte⟩

/-- The POST body transmitted by `fallback_request` (src/main.py lines
59-64): `requests` form-encodes the `data` dict in insertion order,
applying `quote_plus` to each key and value. -/
def fallback_request_body (cid cs : String) : String :=
  "client_id=" ++ quote_plus cid ++ "&client_secret=" ++ quote_plus cs ++
    "&grant_type=" ++ quote_plus "client_credentials"

/-- The POST body of the in-page fetch built by
`solve_cloudflare_with_2captcha` (src/main.py lines 131-137): an f-string
interpolates `CLIENT_ID` and `CLIENT_SECRET` raw, with no encoding. -/
def browser_fetch_body (cid cs : String) : String :=
  "client_id=" ++ cid ++ "&client_secret=" ++ cs ++ "&grant_type=client_credentials"

/-- Claim C1: for every upstream response with HTTP status 200 whose body
is a JSON object exactly matching
`\x7baccess_token, expires_in, token_type\x7d`, `get_token` returns a
Token Result whose fields equal that body's fields, and the browser
fallback path is never invoked for that request — whatever the body text
and whatever the browser path would have done. -/
theorem C1_status200_token_body_direct_return (a t txt : String) (n : Int)
    (solver : SolverOutcome) :
    get_token (some ⟨200, txt,
        some (.obj [("access_token", .str a), ("expires_in", .num n),
                    ("token_type", .str t)])⟩) solver
      = ⟨.token ⟨a, n, t⟩, false⟩ := by
  simp [get_token, directSuccess, tokenResponseOfJson, jsonLookup]

/-- Claim C6: if the direct exchange yields no response (the transport call
raised), `get_token` invokes the browser fallback path, and its reply is
`browserPhase solver` — a function with no access to any response body, so
no body is parsed on the way. -/
theorem C6_transport_absence_invokes_browser (solver : SolverOutcome) :
    get_token none solver = ⟨browserPhase solver, true⟩ := rfl

/-- Claim C7: on every invocation of `solve_cloudflare_with_2captcha` in
which the Chrome driver is successfully created, `driver.quit()` runs on
every exit path — normal return, a caught step failure, or a propagating
unexpected exception. -/
theorem C7_driver_quit_on_every_exit (body : PyOutcome (Option String)) :
    (solve_cloudflare_with_2captcha (.ok ()) body).quitCalled = true := by
  cases body <;> rfl

/-- Claim C9: if the browser fallback path completes and returns the empty
string, `get_token` treats it as absence of a result and returns the
`all_methods_failed` error with status 500 — not `invalid_response` and
not a token. -/
theorem C9_empty_browser_result_all_methods_failed (d : Option Response)
    (p : Option Json) (h1 : directSuccess d = none)
    (h2 : should_use_2captcha d = true) :
    get_token d (.value (some ("", p))) = ⟨.err allMethodsFailed, true⟩ := by
  simp [get_token, h1, h2, browserPhase, run_2captcha_with_timeout]

/-- Witness for C9 at a concrete input: transport failure on the direct
path, browser path returning the empty string. -/
theorem C9_empty_browser_result_all_methods_failed_witness :
    directSuccess none = none ∧ should_use_2captcha none = true ∧
    get_token none (.value (some ("", none))) = ⟨.err allMethodsFailed, true⟩ :=
  ⟨rfl, rfl, C9_empty_browser_result_all_methods_failed none none rfl rfl⟩

/-- Claim C10: a 200 response whose body parses as JSON but does not
validate as a token does not raise and does not yield `invalid_response`:
control falls through to the challenge-marker check, and with no marker
present `get_token` returns `all_methods_failed` with status 500, the
browser path untouched. -/
theorem C10_200_nontoken_json_falls_through (j : Json) (txt : String)
    (solver : SolverOutcome) (h1 : tokenResponseOfJson j = none)
    (h2 : challengeMarked txt = false) :
    get_token (some ⟨200, txt, some j⟩) solver = ⟨.err allMethodsFailed, false⟩ := by
  simp [get_token, directSuccess, should_use_2captcha, h1, h2]

/-- Witness for C10 at a concrete input: a 200 response whose JSON object
lacks `expires_in` and `token_type`. -/
theorem C10_200_nontoken_json_falls_through_witness :
    tokenResponseOfJson (.obj [("access_token", .str "a")]) = none ∧
    challengeMarked "\x7b\"access_token\":\"a\"\x7d" = false ∧
    get_token (some ⟨200, "\x7b\"access_token\":\"a\"\x7d",
        some (.obj [("access_token", .str "a")])⟩) (.value none)
      = ⟨.err allMethodsFailed, false⟩ :=
  ⟨rfl, by decide,
    C10_200_nontoken_json_falls_through (.obj [("access_token", .str "a")])
      "\x7b\"access_token\":\"a\"\x7d" (.value none) rfl (by decide)⟩

/-- A 200 response whose body is a valid token JSON object that happens to
contain the challenge marker "Just a moment" inside its `access_token`
value. -/
def markerTokenResp : Response :=
  ⟨200,
   "\x7b\"access_token\":\"Just a moment\",\"expires_in\":3600,\"token_type\":\"Bearer\"\x7d",
   some (.obj [("access_token", .str "Just a moment"),
               ("expires_in", .num 3600), ("token_type", .str "Bearer")])⟩

/-- Claim C2, counterexample: a response whose body text contains
"Just a moment" but which is a 200 with a validating token body. The
claim demands the browser path be invoked, yet `get_token` returns the
token with the browser path untouched: the 200-success return precedes
the marker check. -/
theorem C2_counterexample :
    challengeMarked markerTokenResp.text = true ∧
    get_token (some markerTokenResp) (.value none)
      = ⟨.token ⟨"Just a moment", 3600, "Bearer"⟩, false⟩ := by
  exact ⟨by decide, by decide⟩

/-- Claim C2 as amended: for every response that does not take the
200-success return (no token is produced by the direct path) and whose
body text contains "Just a moment" or "cf-challenge", `get_token` invokes
the browser fallback path, regardless of the status code. -/
theorem C2_marker_invokes_browser (r : Response) (solver : SolverOutcome)
    (h : directSuccess (some r) = none) (hm : challengeMarked r.text = true) :
    (get_token (some r) solver).browserInvoked = true := by
  simp [get_token, h, should_use_2captcha, hm]

/-- Witness for the amended C2 at a concrete input: a 403 challenge page. -/
theorem C2_marker_invokes_browser_witness :
    directSuccess (some ⟨403, "Just a moment...", none⟩) = none ∧
    challengeMarked "Just a moment..." = true ∧
    (get_token (some ⟨403, "Just a moment...", none⟩) (.value none)).browserInvoked
      = true :=
  ⟨rfl, by decide,
    C2_marker_invokes_browser ⟨403, "Just a moment...", none⟩ (.value none)
      rfl (by decide)⟩

/-- Claim C3: when the browser path is invoked and exceeds its 300-second
deadline, `get_token` does NOT return the `timeout`/408 error the claim
(and the code's own dead `except asyncio.TimeoutError` branch, lines
203-209) describe: `run_2captcha_with_timeout` swallows the
`asyncio.TimeoutError` and returns `None`, so the reply is
`all_methods_failed` with status 500 — and in particular never a token. -/
theorem C3_deadline_yields_all_methods_failed (direct : Option Response)
    (h1 : directSuccess direct = none) (h2 : should_use_2captcha direct = true) :
    get_token direct .overDeadline = ⟨.err allMethodsFailed, true⟩ := by
  simp [get_token, h1, h2, browserPhase, run_2captcha_with_timeout]

/-- Witness for C3 at a concrete input: transport failure on the direct
path, then the solver overruns the deadline. -/
theorem C3_deadline_yields_all_methods_failed_witness :
    directSuccess none = none ∧ should_use_2captcha none = true ∧
    get_token none .overDeadline = ⟨.err allMethodsFailed, true⟩ :=
  ⟨rfl, rfl, C3_deadline_yields_all_methods_failed none rfl rfl⟩

/-- Claim C4, counterexample: the spec's own scenario — status 500, body
"Internal Server Error", no challenge marker. The claim demands
`\x7b"error":"http_error","message":"HTTP 500: Internal Server Error",...\x7d`;
the code has no `http_error` branch and returns the final
`all_methods_failed` error instead. -/
theorem C4_counterexample :
    get_token (some ⟨500, "Internal Server Error", none⟩) (.value none)
      = ⟨.err allMethodsFailed, false⟩ ∧
    allMethodsFailed.error ≠ "http_error" ∧
    allMethodsFailed.message ≠ "HTTP 500: Internal Server Error" := by
  exact ⟨by decide, by decide, by decide⟩

/-- Claim C4 as amended: for every direct-exchange response with non-200
status whose body contains no challenge marker, `get_token` returns the
error `all_methods_failed` with message "All methods to obtain token
failed" and status_code 500 (the upstream status is not propagated, and
no `http_error` category exists), without invoking the browser path. -/
theorem C4_non200_no_marker_all_methods_failed (r : Response)
    (solver : SolverOutcome) (h1 : r.status_code ≠ 200)
    (h2 : challengeMarked r.text = false) :
    get_token (some r) solver = ⟨.err allMethodsFailed, false⟩ := by
  simp [get_token, directSuccess, should_use_2captcha, h1, h2]

/-- Witness for the amended C4 at the spec's scenario input. -/
theorem C4_non200_no_marker_all_methods_failed_witness :
    (500 : Nat) ≠ 200 ∧ challengeMarked "Internal Server Error" = false ∧
    get_token (some ⟨500, "Internal Server Error", none⟩) (.value none)
      = ⟨.err allMethodsFailed, false⟩ :=
  ⟨by decide, by decide,
    C4_non200_no_marker_all_methods_failed ⟨500, "Internal Server Error", none⟩
      (.value none) (by decide) (by decide)⟩

/-- Claim C5, counterexample: the browser path returns "\x7b\x7d", which
parses as JSON but does not validate as a token. The claim demands
`invalid_response`; the pydantic `ValidationError` escapes the inner
`try` (whose `except` only catches `json.JSONDecodeError`) and is caught
by the outer `except Exception`, producing `captcha_failed` instead. -/
theorem C5_counterexample :
    (get_token none (.value (some ("\x7b\x7d", some (.obj []))))).reply
      = .err (captchaFailed (validationMsg (.obj []))) ∧
    (captchaFailed (validationMsg (.obj []))).error ≠ "invalid_response" := by
  exact ⟨rfl, by decide⟩

/-- Claim C5 as amended: when the browser path is invoked and returns
nonempty text, `get_token` returns `invalid_response` with status 500 if
the text fails JSON parsing; if instead the text parses as JSON that does
not validate as a token, it returns `captcha_failed` with status 500. -/
theorem C5_browser_result_parse_outcomes (d : Option Response) (s : String)
    (j : Json) (h1 : directSuccess d = none) (h2 : should_use_2captcha d = true)
    (hs : s ≠ "") :
    (get_token d (.value (some (s, none)))).reply = .err invalidResponse ∧
    (tokenResponseOfJson j = none →
      (get_token d (.value (some (s, some j)))).reply
        = .err (captchaFailed (validationMsg j))) := by
  constructor
  · simp [get_token, h1, h2, browserPhase, run_2captcha_with_timeout, hs]
  · intro hj
    simp [get_token, h1, h2, browserPhase, run_2captcha_with_timeout, hs, hj]

/-- Witness for the amended C5 at concrete inputs: transport failure, then
the browser path returns "not json" (unparseable) or "\x7b\x7d"
(parseable, non-token). -/
theorem C5_browser_result_parse_outcomes_witness :
    directSuccess none = none ∧ should_use_2captcha none = true ∧
    ("not json" : String) ≠ "" ∧
    ((get_token none (.value (some ("not json", none)))).reply
        = .err invalidResponse ∧
      (tokenResponseOfJson (.obj []) = none →
        (get_token none (.value (some ("not json", some (.obj []))))).reply
          = .err (captchaFailed (validationMsg (.obj []))))) :=
  ⟨rfl, rfl, by decide,
    C5_browser_result_parse_outcomes none "not json" (.obj []) rfl rfl (by decide)⟩

/-- Claim C8, counterexample: with `CLIENT_ID = "id"` and
`CLIENT_SECRET = "a&b"`, the direct path form-encodes the secret to
`a%26b` while the browser-path f-string interpolates it raw, so the two
POST bodies differ. -/
theorem C8_counterexample :
    fallback_request_body "id" "a&b" ≠ browser_fetch_body "id" "a&b" := by
  decide

/-- Claim C8 as amended: the browser-path fetch body coincides with the
direct-exchange body exactly on configurations whose `CLIENT_ID` and
`CLIENT_SECRET` are left unchanged by form-encoding (`quote_plus`); for
such values the two paths transmit the identical
`client_id=...&client_secret=...&grant_type=client_credentials` body. -/
theorem C8_bodies_agree_on_quote_fixed (cid cs : String)
    (h1 : quote_plus cid = cid) (h2 : quote_plus cs = cs) :
    fallback_request_body cid cs = browser_fetch_body cid cs := by
  have hg : quote_plus "client_credentials" = "client_credentials" := by decide
  simp only [fallback_request_body, browser_fetch_body, h1, h2, hg,
    String.append_assoc]
  rfl

/-- Witness for the amended C8 at a concrete configuration of safe
characters. -/
theorem C8_bodies_agree_on_quote_fixed_witness :
    quote_plus "abc" = "abc" ∧ quote_plus "s3cr3t" = "s3cr3t" ∧
    fallback_request_body "abc" "s3cr3t" = browser_fetch_body "abc" "s3cr3t" :=
  ⟨by decide, by decide,
    C8_bodies_agree_on_quote_fixed "abc" "s3cr3t" (by decide) (by decide)⟩




